import Mathlib

/-!
Verification of the MV (Minimum de Viabilité) sliding-20-minute analysis
program `app_mv_analysis.py`.

The program reads two ';'-separated tables (OCC: per-minute occupancy for
each day, LOAD: sliding-window hourly load for each day), checks that both
carry the same sector identifier (TV), and on the Calculate action walks
every day of the OCC table and every LOAD column, extracts the 60-minute
occupancy window for that column's start time, computes two viability
scores, and collects one record per (day, window) pair; records whose load
cell did not parse are dropped, and MV is then estimated from percentiles
of the loads of the windows whose score exceeds 30.

Embedding conventions:
- numeric cells are rationals (the Python code works on floats produced by
  `float(...)`); a cell whose `float(...)` raised is embedded as `none`;
- Python strings are lists of characters (`PyStr`), with structural
  re-implementations of `str.strip`, `str.split` on a one-character
  separator and `int(...)` restricted to unsigned decimal digits (the only
  shapes the program feeds them);
- a pandas `Date` cell parsed with `errors='coerce'` is `Option Nat`
  (a day ordinal, or `none` for NaT), and `pdEq` embeds pandas elementwise
  `==`, which yields `False` on any cross-dtype comparison such as a
  datetime64 column against an integer scalar;
- `pandas.Series.quantile` (default linear interpolation) is embedded by
  `quantile` over an insertion-sorted copy of the values;
- a Calculate run ends in one of three ways, captured by `RunOutcome`: the
  `st.stop()` of the identifier check, the uncaught `KeyError` that line
  253 raises when the record list is empty (`pd.DataFrame([])` has no
  `'Load'` column), or completion with the filtered record table.
-/

namespace MVAnalysis

/-- Embedding of `score_option_a` (linear degradation): fold over the
occupancy minutes, `+1` when the minute is at most `sustain + tolerance`,
otherwise subtract the excess over `sustain + tolerance`. -/
def score_option_a (occMinutes : List ℚ) (sustain tolerance : ℚ) : ℚ :=
  occMinutes.foldl
    (fun score occ =>
      if occ ≤ sustain + tolerance then score + 1
      else score - (occ - sustain - tolerance))
    0

/-- Embedding of `score_option_b` (three zones): `+1` below
`sustain + tolerance`, `0` between that ceiling and `peak`, and
`-2 * (occ - peak)` above `peak`. -/
def score_option_b (occMinutes : List ℚ) (sustain tolerance peak : ℚ) : ℚ :=
  occMinutes.foldl
    (fun score occ =>
      if occ ≤ sustain + tolerance then score + 1
      else if occ ≤ peak then score + 0
      else score - (occ - peak) * 2)
    0

/-- Per-minute contribution of `score_option_a`. -/
def contribA (sustain tolerance occ : ℚ) : ℚ :=
  if occ ≤ sustain + tolerance then 1 else -(occ - sustain - tolerance)

/-- Per-minute contribution of `score_option_b`. -/
def contribB (sustain tolerance peak occ : ℚ) : ℚ :=
  if occ ≤ sustain + tolerance then 1
  else if occ ≤ peak then 0
  else -(occ - peak) * 2

/-- Python slice `xs[a:b]` for `0 ≤ a ≤ b` (out-of-range bounds clamp, as in
Python). -/
def pySlice {α : Type} (xs : List α) (a b : Nat) : List α :=
  (xs.take b).drop a

/-- Embedding of the window extraction of the calculation loop:
`end_idx = start_idx + 60`; when `end_idx ≤ len(occ_values)` the window is
`occ_values[start_idx:end_idx]`, otherwise it wraps past midnight as
`occ_values[start_idx:] + occ_values[:end_idx - len(occ_values)]`. -/
def occ_window (occValues : List ℚ) (startIdx : Nat) : List ℚ :=
  if startIdx + 60 ≤ occValues.length then pySlice occValues startIdx (startIdx + 60)
  else occValues.drop startIdx ++ occValues.take (startIdx + 60 - occValues.length)

/-- A Python string, embedded as its character sequence. -/
abbrev PyStr := List Char

/-- Python `s.split(sep)` for a one-character separator: the maximal pieces
between occurrences of `sep`; always at least one (possibly empty) piece. -/
def splitOnChar (sep : Char) (s : PyStr) : List PyStr :=
  s.foldr
    (fun c acc =>
      match acc with
      | [] => [[c]]
      | cur :: rest => if c = sep then [] :: cur :: rest else (c :: cur) :: rest)
    [[]]

/-- Python `int(s)` restricted to the unsigned decimal strings the program
feeds it (hour and minute fields of a window label): `some` of the value on
a nonempty all-digit string, `none` (a raised `ValueError`) otherwise. -/
def parseNat (s : PyStr) : Option Nat :=
  if s ≠ [] ∧ s.all Char.isDigit then
    some (s.foldl (fun n c => 10 * n + (c.toNat - 48)) 0)
  else none

/-- Python `s.strip()`: drop whitespace from both ends. -/
def pyTrim (s : PyStr) : PyStr :=
  ((s.dropWhile Char.isWhitespace).reverse.dropWhile Char.isWhitespace).reverse

/-- Embedding of `parse_load_column`: split the label on `'-'`, split the
part before the dash on `':'`, and parse the two pieces as hour and minute;
any failure (wrong shape, non-numeric piece) yields `none`, as the caught
exception does in the source. -/
def parse_load_column (colName : PyStr) : Option (Nat × Nat) :=
  match splitOnChar '-' colName with
  | [] => none
  | startTime :: _ =>
    match splitOnChar ':' startTime with
    | [h, m] =>
      match parseNat h, parseNat m with
      | some hv, some mv => some (hv, mv)
      | _, _ => none
    | _ => none

/-- Python `round(x)` (banker's rounding, half to even), on exact rational
arithmetic. -/
def pyRound (x : ℚ) : ℤ :=
  let f := ⌊x⌋
  let frac := x - (f : ℚ)
  if frac < 1/2 then f
  else if 1/2 < frac then f + 1
  else if f % 2 = 0 then f else f + 1

/-- Python `round(x, 2)`: round to the nearest multiple of 1/100. -/
def round2 (x : ℚ) : ℚ := (pyRound (100 * x) : ℚ) / 100

/-- `numpy.mean` over a window. -/
def npMean (l : List ℚ) : ℚ := l.sum / l.length

/-- `numpy.max` over a window (the program only applies it to nonempty
windows; the empty case is given the junk value 0). -/
def npMax (l : List ℚ) : ℚ :=
  match l with
  | [] => 0
  | x :: xs => xs.foldl max x

/-- Insert a value into an ascending-sorted list. -/
def insertSorted (x : ℚ) : List ℚ → List ℚ
  | [] => [x]
  | y :: ys => if x ≤ y then x :: y :: ys else y :: insertSorted x ys

/-- Ascending insertion sort, modelling the sort performed inside
`pandas.Series.quantile`. -/
def sortAsc (l : List ℚ) : List ℚ := l.foldr insertSorted []

/-- `pandas.Series.quantile(q)` with the default linear interpolation:
with `s` the sorted values and `h = q * (n - 1)`, interpolate between
`s[⌊h⌋]` and `s[⌊h⌋ + 1]`. -/
def quantile (xs : List ℚ) (q : ℚ) : ℚ :=
  let s := sortAsc xs
  let h := q * ((s.length : ℚ) - 1)
  let lo := (⌊h⌋).toNat
  let lov := s.getD lo 0
  lov + (h - (⌊h⌋ : ℚ)) * (s.getD (lo + 1) lov - lov)

/-- One entry of the `results` list: the dict built per (day, window) pair,
with the fields of lines 240-250 of the source. -/
structure WindowRecord where
  date : Nat
  window : PyStr
  hourStart : Nat
  minStart : Nat
  load : Option ℚ
  scoreA : ℚ
  scoreB : ℚ
  avgOcc : ℚ
  maxOcc : ℚ
deriving DecidableEq

/-- The body of the loop over the LOAD columns for one matched day: parse
the column label (an unparsable label is skipped, line 212), extract the
60-minute occupancy window at `hour * 60 + minute`, and build the record
with both scores, the (optional) load cell and the window's mean and max,
each rounded to two decimals. -/
def windowRecordOf (occValues : List ℚ) (dateKey : Nat)
    (sustain tolerance peak : ℚ) (cc : PyStr × Option ℚ) :
    Option WindowRecord :=
  match parse_load_column cc.1 with
  | none => none
  | some hm =>
    let w := occ_window occValues (hm.1 * 60 + hm.2)
    some
      { date := dateKey
        window := cc.1
        hourStart := hm.1
        minStart := hm.2
        load := cc.2
        scoreA := round2 (score_option_a w sustain tolerance)
        scoreB := round2 (score_option_b w sustain tolerance peak)
        avgOcc := round2 (npMean w)
        maxOcc := round2 (npMax w) }

/-- The records of one matched day: the loop body applied to every LOAD
column with that row's cell. -/
def dayResults (loadCols : List PyStr) (loadCells : List (Option ℚ))
    (occValues : List ℚ) (dateKey : Nat) (sustain tolerance peak : ℚ) :
    List WindowRecord :=
  (loadCols.zip loadCells).filterMap
    (windowRecordOf occValues dateKey sustain tolerance peak)

/-- A pandas scalar as it occurs in the day-matching comparison: an integer
(the positional index the loop iterates over), a parsed timestamp, or NaT. -/
inductive PdVal where
  | pInt : Int → PdVal
  | pTimestamp : Nat → PdVal
  | pNaT : PdVal
deriving DecidableEq

/-- pandas elementwise `==`: equal only for two values of the same dtype
with the same value; a cross-dtype comparison (datetime64 against an
integer) is an invalid comparison and evaluates to `False`, and NaT
compares unequal to everything including itself. -/
def pdEq : PdVal → PdVal → Bool
  | PdVal.pInt a, PdVal.pInt b => a == b
  | PdVal.pTimestamp a, PdVal.pTimestamp b => a == b
  | _, _ => false

/-- A `Date` cell parsed with `errors='coerce'`: a timestamp, or NaT. -/
def toPdDate : Option Nat → PdVal
  | some d => PdVal.pTimestamp d
  | none => PdVal.pNaT

/-- One row of the OCC table: its parsed `Date` cell and its minute cells
(in minute order; `none` for an unparsable cell). -/
structure OccRow where
  date : Option Nat
  cells : List (Option ℚ)
deriving DecidableEq

/-- One row of the LOAD table: its parsed `Date` cell and its window cells,
positionally aligned with the list of LOAD column labels. -/
structure LoadRow where
  date : Option Nat
  cells : List (Option ℚ)
deriving DecidableEq

/-- The data the Calculate action works on: the two TV identifier cells and
the two tables. -/
structure AnalysisInput where
  tvOcc : PyStr
  tvLoad : PyStr
  occRows : List OccRow
  loadRows : List LoadRow
  loadCols : List PyStr
deriving DecidableEq

/-- Embedding of the occupancy extraction (lines 201-206): every cell whose
`float(...)` raised contributes 0. -/
def occValuesOf (cells : List (Option ℚ)) : List ℚ :=
  cells.map (fun c => c.getD 0)

/-- Embedding of `load_df[load_df['Date'] == date]` followed by the
emptiness test and `.iloc[0]` (lines 193-198): the first LOAD row whose
`Date` cell compares pandas-equal to the key, if any. -/
def row_load (loadRows : List LoadRow) (key : PdVal) : Option LoadRow :=
  (loadRows.filter (fun r => pdEq (toPdDate r.date) key)).head?

/-- Embedding of the calculation loop (lines 191-250): iterate over the
positional index of the OCC table (`occ_df.index`), look up a LOAD row by
comparing that integer against the LOAD `Date` column, skip the day when
no row matches, and otherwise emit the day's window records. -/
def computeResults (inp : AnalysisInput) (sustain tolerance peak : ℚ) :
    List WindowRecord :=
  inp.occRows.enum.flatMap
    (fun ie =>
      match row_load inp.loadRows (PdVal.pInt (ie.1 : Int)) with
      | none => []
      | some lr =>
          dayResults inp.loadCols lr.cells (occValuesOf ie.2.cells) ie.1
            sustain tolerance peak)

/-- How one Calculate run ends: the `st.stop()` of the identifier check
(line 133); the uncaught `KeyError: 'Load'` that line 253 raises when the
record list is empty, because `pd.DataFrame([])` has no columns at all and
`df_results['Load']` is then an invalid column lookup; or completion with
the filtered record table. -/
inductive RunOutcome where
  | tvMismatchStop : RunOutcome
  | keyErrorLoad : RunOutcome
  | completed : List WindowRecord → RunOutcome
deriving DecidableEq

/-- The whole run: the TV check of lines 131-137 aborts the run (`st.stop`)
when the stripped identifiers differ, before any scoring. Otherwise the
records are computed and lines 252-253 build `pd.DataFrame(results)` and
filter it by `df_results['Load'].notna()`: when `results` is empty the
frame has no `'Load'` column and the lookup raises an uncaught `KeyError`,
aborting the run; when it is nonempty (every record dict carries a `'Load'`
key) the filter drops the records without a parsed load. -/
def runAnalysis (inp : AnalysisInput) (sustain tolerance peak : ℚ) :
    RunOutcome :=
  if pyTrim inp.tvOcc = pyTrim inp.tvLoad then
    if (computeResults inp sustain tolerance peak).isEmpty then
      RunOutcome.keyErrorLoad
    else
      RunOutcome.completed
        ((computeResults inp sustain tolerance peak).filter
          (fun r => r.load.isSome))
  else RunOutcome.tvMismatchStop

/-- `df_results[df_results['Score_A'] > 30]['Load']` (line 464). -/
def viable_loads_a (rs : List WindowRecord) : List ℚ :=
  (rs.filter (fun r => decide (30 < r.scoreA))).filterMap (fun r => r.load)

/-- `df_results[df_results['Score_B'] > 30]['Load']` (line 482). -/
def viable_loads_b (rs : List WindowRecord) : List ℚ :=
  (rs.filter (fun r => decide (30 < r.scoreB))).filterMap (fun r => r.load)

/-- The MV block for one method (lines 466-477): with more than 10 viable
loads report the P50/P75/P90 quantiles, otherwise report nothing
("Pas assez de données"). -/
def mvEstimate (loads : List ℚ) : Option (ℚ × ℚ × ℚ) :=
  if 10 < loads.length then
    some (quantile loads (1/2), quantile loads (3/4), quantile loads (9/10))
  else none

/-- MV estimates for method A. -/
def mvReportA (rs : List WindowRecord) : Option (ℚ × ℚ × ℚ) :=
  mvEstimate (viable_loads_a rs)

/-- MV estimates for method B. -/
def mvReportB (rs : List WindowRecord) : Option (ℚ × ℚ × ℚ) :=
  mvEstimate (viable_loads_b rs)

/-- A value stored in a result dict, tagged with its Python type. -/
inductive FieldVal where
  | natV : Nat → FieldVal
  | strV : PyStr → FieldVal
  | ratV : ℚ → FieldVal
  | optV : Option ℚ → FieldVal
deriving DecidableEq

/-- The key/value pairs of the result dict of lines 240-250, in source
order. -/
def resultFields (r : WindowRecord) : List (PyStr × FieldVal) :=
  [(("Date").toList, FieldVal.natV r.date),
   (("Window").toList, FieldVal.strV r.window),
   (("Hour_Start").toList, FieldVal.natV r.hourStart),
   (("Min_Start").toList, FieldVal.natV r.minStart),
   (("Load").toList, FieldVal.optV r.load),
   (("Score_A").toList, FieldVal.ratV r.scoreA),
   (("Score_B").toList, FieldVal.ratV r.scoreB),
   (("Avg_OCC").toList, FieldVal.ratV r.avgOcc),
   (("Max_OCC").toList, FieldVal.ratV r.maxOcc)]

/-- Modelled from the spec (§4.6), for comparison against the emitted
records: the dégroupement-minute count is the number of minutes of the
window whose occupancy strictly exceeds PEAK. No function of the source
file computes it. -/
def degroupementCount (w : List ℚ) (peak : ℚ) : Nat :=
  (w.filter (fun occ => decide (peak < occ))).length

/-- The label of the first hourly window, `"0:00-1:00"`. -/
def hourLabel : PyStr := ("0:00-1:00").toList

/-- A 60-minute occupancy window used as concrete input: 53 zero minutes,
one minute at 10, six minutes at 30. -/
def c9W : List ℚ :=
  [0, 0, 0, 0, 0, 0, 0, 0, 0, 0,
   0, 0, 0, 0, 0, 0, 0, 0, 0, 0,
   0, 0, 0, 0, 0, 0, 0, 0, 0, 0,
   0, 0, 0, 0, 0, 0, 0, 0, 0, 0,
   0, 0, 0, 0, 0, 0, 0, 0, 0, 0,
   0, 0, 0, 10, 30, 30, 30, 30, 30, 30]

/-- A full 1440-minute day series whose first hour is `c9W`. -/
def c9Occ : List ℚ := c9W ++ List.replicate 1380 0

/-- The records produced for that day and the single column `"0:00-1:00"`
with load cell 50, under SUSTAIN=20, TOLERANCE=1, PEAK=25. -/
def c9Day : List WindowRecord := dayResults [hourLabel] [some 50] c9Occ 0 20 1 25

/-- The single record `c9Day` produces. -/
def c9Record : WindowRecord :=
  { date := 0
    window := hourLabel
    hourStart := 0
    minStart := 0
    load := some 50
    scoreA := 0
    scoreB := -6
    avgOcc := 317/100
    maxOcc := 30 }

/-- A concrete input whose single OCC day carries the same date as the
single LOAD row. -/
def c5Input : AnalysisInput :=
  { tvOcc := ("LFEE5R").toList
    tvLoad := ("LFEE5R").toList
    occRows := [{ date := some 739252, cells := [some 10, some 10] }]
    loadRows := [{ date := some 739252, cells := [some 50] }]
    loadCols := [hourLabel] }

/-- Ten window records, all viable (score 60) with parsed loads 10..100. -/
def mvRecords10 : List WindowRecord :=
  [{ date := 0, window := hourLabel, hourStart := 0, minStart := 0,
     load := some 10, scoreA := 60, scoreB := 60, avgOcc := 15, maxOcc := 15 },
   { date := 0, window := hourLabel, hourStart := 0, minStart := 0,
     load := some 20, scoreA := 60, scoreB := 60, avgOcc := 15, maxOcc := 15 },
   { date := 0, window := hourLabel, hourStart := 0, minStart := 0,
     load := some 30, scoreA := 60, scoreB := 60, avgOcc := 15, maxOcc := 15 },
   { date := 0, window := hourLabel, hourStart := 0, minStart := 0,
     load := some 40, scoreA := 60, scoreB := 60, avgOcc := 15, maxOcc := 15 },
   { date := 0, window := hourLabel, hourStart := 0, minStart := 0,
     load := some 50, scoreA := 60, scoreB := 60, avgOcc := 15, maxOcc := 15 },
   { date := 0, window := hourLabel, hourStart := 0, minStart := 0,
     load := some 60, scoreA := 60, scoreB := 60, avgOcc := 15, maxOcc := 15 },
   { date := 0, window := hourLabel, hourStart := 0, minStart := 0,
     load := some 70, scoreA := 60, scoreB := 60, avgOcc := 15, maxOcc := 15 },
   { date := 0, window := hourLabel, hourStart := 0, minStart := 0,
     load := some 80, scoreA := 60, scoreB := 60, avgOcc := 15, maxOcc := 15 },
   { date := 0, window := hourLabel, hourStart := 0, minStart := 0,
     load := some 90, scoreA := 60, scoreB := 60, avgOcc := 15, maxOcc := 15 },
   { date := 0, window := hourLabel, hourStart := 0, minStart := 0,
     load := some 100, scoreA := 60, scoreB := 60, avgOcc := 15, maxOcc := 15 }]

/-- An input whose two TV cells differ after stripping. -/
def inpMismatch : AnalysisInput :=
  { tvOcc := ("LFEE5R").toList, tvLoad := ("LFEE4N").toList,
    occRows := [], loadRows := [], loadCols := [] }

/-- An input whose two TV cells agree after stripping. -/
def inpMatch : AnalysisInput :=
  { tvOcc := (" LFEE5R ").toList, tvLoad := ("LFEE5R").toList,
    occRows := [], loadRows := [], loadCols := [] }

/-- An input containing an unparsable occupancy cell and an unparsable load
cell. -/
def c7Input : AnalysisInput :=
  { tvOcc := ("LFEE5R").toList, tvLoad := ("LFEE5R").toList,
    occRows := [{ date := some 1, cells := [none] }],
    loadRows := [{ date := some 1, cells := [none] }],
    loadCols := [hourLabel] }

/-- The record the loop body builds from `c7Input`'s cells: the unparsable
occupancy cell scored as 0 (the window wraps the one-minute series to
`[0, 0]`, scoring +2 under both methods) and the unparsable load cell kept
as a missing load. -/
def c7Record : WindowRecord :=
  { date := 0
    window := hourLabel
    hourStart := 0
    minStart := 0
    load := none
    scoreA := 2
    scoreB := 2
    avgOcc := 0
    maxOcc := 0 }

lemma score_option_a_foldl (occMinutes : List ℚ) (sustain tolerance a : ℚ) :
    occMinutes.foldl
      (fun score occ =>
        if occ ≤ sustain + tolerance then score + 1
        else score - (occ - sustain - tolerance))
      a
      = a + (occMinutes.map (contribA sustain tolerance)).sum := by
  induction occMinutes generalizing a with
  | nil => simp
  | cons x xs ih =>
    simp only [List.foldl_cons, List.map_cons, List.sum_cons, contribA, ih]
    split_ifs with h <;> ring

/-- `score_option_a` is the sum of the per-minute contributions. -/
lemma score_option_a_eq_sum (occMinutes : List ℚ) (sustain tolerance : ℚ) :
    score_option_a occMinutes sustain tolerance
      = (occMinutes.map (contribA sustain tolerance)).sum := by
  have h := score_option_a_foldl occMinutes sustain tolerance 0
  simpa [score_option_a] using h

lemma score_option_b_foldl (occMinutes : List ℚ) (sustain tolerance peak a : ℚ) :
    occMinutes.foldl
      (fun score occ =>
        if occ ≤ sustain + tolerance then score + 1
        else if occ ≤ peak then score + 0
        else score - (occ - peak) * 2)
      a
      = a + (occMinutes.map (contribB sustain tolerance peak)).sum := by
  induction occMinutes generalizing a with
  | nil => simp
  | cons x xs ih =>
    simp only [List.foldl_cons, List.map_cons, List.sum_cons, contribB, ih]
    split_ifs with h h2 <;> ring

/-- `score_option_b` is the sum of the per-minute contributions. -/
lemma score_option_b_eq_sum (occMinutes : List ℚ) (sustain tolerance peak : ℚ) :
    score_option_b occMinutes sustain tolerance peak
      = (occMinutes.map (contribB sustain tolerance peak)).sum := by
  have h := score_option_b_foldl occMinutes sustain tolerance peak 0
  simpa [score_option_b] using h

/-- C1: Score A is the sum over minutes of `+1` when the minute is at most
SUSTAIN+TOLERANCE and `-(occ - SUSTAIN - TOLERANCE)` otherwise; a 60-value
window of constant 22 with SUSTAIN=20, TOLERANCE=1 scores -60, and a
60-value window of constant 15 with the same thresholds scores +60. -/
theorem scoreA_linear_per_minute :
    (∀ (occMinutes : List ℚ) (sustain tolerance : ℚ),
      score_option_a occMinutes sustain tolerance
        = (occMinutes.map (fun occ =>
            if occ ≤ sustain + tolerance then (1 : ℚ)
            else -(occ - sustain - tolerance))).sum)
    ∧ score_option_a (List.replicate 60 (22 : ℚ)) 20 1 = -60
    ∧ score_option_a (List.replicate 60 (15 : ℚ)) 20 1 = 60 := by
  refine ⟨fun occMinutes sustain tolerance => ?_, ?_, ?_⟩
  · rw [score_option_a_eq_sum]
    rfl
  · rw [score_option_a_eq_sum, List.map_replicate, List.sum_replicate]
    norm_num [contribA]
  · rw [score_option_a_eq_sum, List.map_replicate, List.sum_replicate]
    norm_num [contribA]

/-- C2: Score B is the sum over minutes of `+1` in the viable zone, `0` in
the alert zone and `-2 * (occ - PEAK)` above PEAK; a 60-value window with 50
values at 15 and 10 values at 30, SUSTAIN=20, TOLERANCE=1, PEAK=25 scores
50 - 100 = -50. -/
theorem scoreB_three_zones :
    (∀ (occMinutes : List ℚ) (sustain tolerance peak : ℚ),
      score_option_b occMinutes sustain tolerance peak
        = (occMinutes.map (fun occ =>
            if occ ≤ sustain + tolerance then (1 : ℚ)
            else if occ ≤ peak then 0
            else -(2 * (occ - peak)))).sum)
    ∧ score_option_b (List.replicate 50 (15 : ℚ) ++ List.replicate 10 30) 20 1 25
        = 50 - 100 := by
  constructor
  · intro occMinutes sustain tolerance peak
    rw [score_option_b_eq_sum]
    congr 1
    apply List.map_congr_left
    intro occ _
    simp only [contribB]
    split_ifs <;> ring
  · rw [score_option_b_eq_sum, List.map_append, List.sum_append,
      List.map_replicate, List.map_replicate, List.sum_replicate, List.sum_replicate]
    norm_num [contribB]

/-- C3: window extraction is circular within one day's 1440-minute series:
for a start minute `s ≤ 1439`, the window is `series[s : s+60]` when
`s + 60 ≤ 1440`, and otherwise `series[s : 1440] + series[0 : s+60-1440]`;
in particular the window starting at minute 1430 is
`series[1430:1440] + series[0:50]`. -/
theorem occ_window_circular (series : List ℚ) (s : Nat)
    (hlen : series.length = 1440) (hs : s ≤ 1439) :
    (s + 60 ≤ 1440 → occ_window series s = pySlice series s (s + 60))
    ∧ (1440 < s + 60 →
        occ_window series s
          = pySlice series s 1440 ++ pySlice series 0 (s + 60 - 1440))
    ∧ (s = 1430 →
        occ_window series s = pySlice series 1430 1440 ++ pySlice series 0 50) := by
  have hwrap : 1440 < s + 60 →
      occ_window series s
        = pySlice series s 1440 ++ pySlice series 0 (s + 60 - 1440) := by
    intro h
    rw [occ_window, hlen, if_neg (by omega)]
    have h1 : pySlice series s 1440 = series.drop s := by
      rw [pySlice, ← hlen, List.take_length]
    have h2 : pySlice series 0 (s + 60 - 1440) = series.take (s + 60 - 1440) := by
      rw [pySlice, List.drop_zero]
    rw [h1, h2]
  refine ⟨?_, hwrap, ?_⟩
  · intro h
    rw [occ_window, hlen, if_pos h]
  · intro h
    subst h
    simpa using hwrap (by omega)

/-- Witness for C3 at the constant series of 1440 tens, start minute 1430. -/
theorem occ_window_circular_witness :
    ((1430 : Nat) + 60 ≤ 1440 →
        occ_window (List.replicate 1440 (10 : ℚ)) 1430
          = pySlice (List.replicate 1440 (10 : ℚ)) 1430 (1430 + 60))
    ∧ (1440 < 1430 + 60 →
        occ_window (List.replicate 1440 (10 : ℚ)) 1430
          = pySlice (List.replicate 1440 (10 : ℚ)) 1430 1440
            ++ pySlice (List.replicate 1440 (10 : ℚ)) 0 (1430 + 60 - 1440))
    ∧ ((1430 : Nat) = 1430 →
        occ_window (List.replicate 1440 (10 : ℚ)) 1430
          = pySlice (List.replicate 1440 (10 : ℚ)) 1430 1440
            ++ pySlice (List.replicate 1440 (10 : ℚ)) 0 50) :=
  occ_window_circular (List.replicate 1440 10) 1430 (by rw [List.length_replicate])
    (by norm_num)

/-- The per-minute contribution of Score B is antitone past PEAK: raising an
occupancy value that already exceeds PEAK never raises its contribution. -/
lemma contribB_anti (sustain tolerance peak g v : ℚ)
    (hg : peak < g) (hv : g ≤ v) :
    contribB sustain tolerance peak v ≤ contribB sustain tolerance peak g := by
  unfold contribB
  split_ifs <;> linarith

/-- Replacing the element at a valid index by one with a contribution that is
no larger never raises Score B. -/
lemma scoreB_set_le (sustain tolerance peak : ℚ) :
    ∀ (l : List ℚ) (i : Nat) (v : ℚ), i < l.length →
      contribB sustain tolerance peak v
        ≤ contribB sustain tolerance peak (l.getD i 0) →
      score_option_b (l.set i v) sustain tolerance peak
        ≤ score_option_b l sustain tolerance peak := by
  intro l
  induction l with
  | nil => intro i v hi; simp at hi
  | cons x xs ih =>
    intro i v hi hcontrib
    cases i with
    | zero =>
      rw [List.set_cons_zero, score_option_b_eq_sum, score_option_b_eq_sum]
      simp only [List.map_cons, List.sum_cons]
      simp only [List.getD_cons_zero] at hcontrib
      exact add_le_add_right hcontrib _
    | succ j =>
      rw [List.set_cons_succ, score_option_b_eq_sum, score_option_b_eq_sum]
      simp only [List.map_cons, List.sum_cons]
      have hj : j < xs.length := by simpa using hi
      have := ih j v hj (by simpa using hcontrib)
      rw [score_option_b_eq_sum, score_option_b_eq_sum] at this
      exact add_le_add_left this _

/-- C8: Score B is monotonically non-increasing in any single minute's
occupancy once that minute exceeds PEAK: replacing the value at index `i`
(which exceeds PEAK) by any value at least as large never increases
`score_option_b`, the other minutes and the thresholds held fixed. -/
theorem scoreB_monotone_past_peak (occMinutes : List ℚ)
    (sustain tolerance peak : ℚ) (i : Nat) (v : ℚ)
    (hi : i < occMinutes.length) (hpeak : peak < occMinutes.getD i 0)
    (hv : occMinutes.getD i 0 ≤ v) :
    score_option_b (occMinutes.set i v) sustain tolerance peak
      ≤ score_option_b occMinutes sustain tolerance peak :=
  scoreB_set_le sustain tolerance peak occMinutes i v hi
    (contribB_anti sustain tolerance peak (occMinutes.getD i 0) v hpeak hv)

/-- Witness for C8 at the window `[30, 10]`, raising minute 0 from 30 to 40
with SUSTAIN=20, TOLERANCE=1, PEAK=25. -/
theorem scoreB_monotone_past_peak_witness :
    score_option_b ([(30 : ℚ), 10].set 0 40) 20 1 25
      ≤ score_option_b [(30 : ℚ), 10] 20 1 25 :=
  scoreB_monotone_past_peak [30, 10] 20 1 25 0 40 (by simp)
    (by simp only [List.getD_cons_zero]; norm_num)
    (by simp only [List.getD_cons_zero]; norm_num)

lemma contribA_le_one (sustain tolerance x : ℚ) :
    contribA sustain tolerance x ≤ 1 := by
  unfold contribA; split_ifs <;> linarith

lemma contribA_eq_one_iff (sustain tolerance x : ℚ) :
    contribA sustain tolerance x = 1 ↔ x ≤ sustain + tolerance := by
  unfold contribA
  split_ifs with h
  · simp [h]
  · constructor
    · intro heq; linarith
    · intro hx; exact absurd hx h

lemma contribB_le_one (sustain tolerance peak x : ℚ) :
    contribB sustain tolerance peak x ≤ 1 := by
  unfold contribB; split_ifs <;> linarith

lemma contribB_eq_one_iff (sustain tolerance peak x : ℚ) :
    contribB sustain tolerance peak x = 1 ↔ x ≤ sustain + tolerance := by
  unfold contribB
  split_ifs with h h2
  · simp [h]
  · constructor
    · intro heq; linarith
    · intro hx; exact absurd hx h
  · constructor
    · intro heq; linarith
    · intro hx; exact absurd hx h

/-- A sum of per-minute contributions each at most 1 is at most the length. -/
lemma sum_contrib_le (f : ℚ → ℚ) (hf : ∀ x, f x ≤ 1) :
    ∀ l : List ℚ, (l.map f).sum ≤ l.length := by
  intro l
  induction l with
  | nil => simp
  | cons x xs ih =>
    simp only [List.map_cons, List.sum_cons, List.length_cons]
    push_cast
    have := hf x
    linarith

/-- The sum of per-minute contributions equals the length exactly when every
minute contributes 1. -/
lemma sum_contrib_eq_iff (f : ℚ → ℚ) (hf : ∀ x, f x ≤ 1) (P : ℚ → Prop)
    (hfP : ∀ x, f x = 1 ↔ P x) :
    ∀ l : List ℚ, ((l.map f).sum = l.length ↔ ∀ x ∈ l, P x) := by
  intro l
  induction l with
  | nil => simp
  | cons x xs ih =>
    simp only [List.map_cons, List.sum_cons, List.length_cons, List.mem_cons]
    have hx := hf x
    have hxs := sum_contrib_le f hf xs
    constructor
    · intro heq
      push_cast at heq
      have h1 : f x = 1 := by linarith
      have h2 : (xs.map f).sum = xs.length := by linarith
      intro y hy
      rcases hy with hy | hy
      · exact (hfP y).mp (hy ▸ h1)
      · exact (ih.mp h2) y hy
    · intro hall
      have h1 : f x = 1 := (hfP x).mpr (hall x (Or.inl rfl))
      have h2 : (xs.map f).sum = xs.length := ih.mpr (fun y hy => hall y (Or.inr hy))
      push_cast
      rw [h1, h2]
      ring

/-- C10: with SUSTAIN, TOLERANCE ≥ 0 and PEAK ≥ SUSTAIN+TOLERANCE, both
scores are at most the number of minutes, and each equals the number of
minutes exactly when every minute's occupancy is at most
SUSTAIN+TOLERANCE. -/
theorem scores_upper_bound (occMinutes : List ℚ) (sustain tolerance peak : ℚ)
    (_hsustain : 0 ≤ sustain) (_htol : 0 ≤ tolerance)
    (_hpeak : sustain + tolerance ≤ peak) :
    score_option_a occMinutes sustain tolerance ≤ occMinutes.length
    ∧ score_option_b occMinutes sustain tolerance peak ≤ occMinutes.length
    ∧ (score_option_a occMinutes sustain tolerance = occMinutes.length
        ↔ ∀ occ ∈ occMinutes, occ ≤ sustain + tolerance)
    ∧ (score_option_b occMinutes sustain tolerance peak = occMinutes.length
        ↔ ∀ occ ∈ occMinutes, occ ≤ sustain + tolerance) := by
  rw [score_option_a_eq_sum, score_option_b_eq_sum]
  exact ⟨sum_contrib_le _ (contribA_le_one sustain tolerance) occMinutes,
    sum_contrib_le _ (contribB_le_one sustain tolerance peak) occMinutes,
    sum_contrib_eq_iff _ (contribA_le_one sustain tolerance) _
      (contribA_eq_one_iff sustain tolerance) occMinutes,
    sum_contrib_eq_iff _ (contribB_le_one sustain tolerance peak) _
      (contribB_eq_one_iff sustain tolerance peak) occMinutes⟩

/-- Witness for C10 at the window `[15, 22]` with SUSTAIN=20, TOLERANCE=1,
PEAK=25. -/
theorem scores_upper_bound_witness :
    score_option_a [(15 : ℚ), 22] 20 1 ≤ ([(15 : ℚ), 22].length : ℚ)
    ∧ score_option_b [(15 : ℚ), 22] 20 1 25 ≤ ([(15 : ℚ), 22].length : ℚ)
    ∧ (score_option_a [(15 : ℚ), 22] 20 1 = ([(15 : ℚ), 22].length : ℚ)
        ↔ ∀ occ ∈ [(15 : ℚ), 22], occ ≤ 20 + 1)
    ∧ (score_option_b [(15 : ℚ), 22] 20 1 25 = ([(15 : ℚ), 22].length : ℚ)
        ↔ ∀ occ ∈ [(15 : ℚ), 22], occ ≤ 20 + 1) :=
  scores_upper_bound [15, 22] 20 1 25 (by norm_num) (by norm_num) (by norm_num)

/-- `viable_loads_a` and `viable_loads_b` gate the MV metrics; their
membership unfolds to a record with a viable score and that load. -/
lemma mem_viable_filterMap (rs : List WindowRecord) (p : WindowRecord → Prop)
    [DecidablePred p] (l : ℚ) :
    (l ∈ (rs.filter (fun r => decide (p r))).filterMap (fun r => r.load)
      ↔ ∃ r ∈ rs, p r ∧ r.load = some l) := by
  simp only [List.mem_filterMap, List.mem_filter, decide_eq_true_eq]
  constructor
  · rintro ⟨r, ⟨hr, hs⟩, hl⟩
    exact ⟨r, hr, hs, hl⟩
  · rintro ⟨r, hr, hs, hl⟩
    exact ⟨r, ⟨hr, hs⟩, hl⟩

/-- C4: for each scoring method the viable set is exactly the records whose
score strictly exceeds 30; with strictly more than 10 viable windows MV is
the P50/P75/P90 quantiles of their loads, and with 10 or fewer (so in
particular with exactly 10) MV is undefined and no percentile is
computed. -/
theorem mv_estimation (rs : List WindowRecord) :
    (∀ l : ℚ, l ∈ viable_loads_a rs ↔ ∃ r ∈ rs, 30 < r.scoreA ∧ r.load = some l)
    ∧ (∀ l : ℚ, l ∈ viable_loads_b rs ↔ ∃ r ∈ rs, 30 < r.scoreB ∧ r.load = some l)
    ∧ (10 < (viable_loads_a rs).length →
        mvReportA rs
          = some (quantile (viable_loads_a rs) (1/2),
              quantile (viable_loads_a rs) (3/4),
              quantile (viable_loads_a rs) (9/10)))
    ∧ ((viable_loads_a rs).length ≤ 10 → mvReportA rs = none)
    ∧ (10 < (viable_loads_b rs).length →
        mvReportB rs
          = some (quantile (viable_loads_b rs) (1/2),
              quantile (viable_loads_b rs) (3/4),
              quantile (viable_loads_b rs) (9/10)))
    ∧ ((viable_loads_b rs).length ≤ 10 → mvReportB rs = none) := by
  refine ⟨?_, ?_, ?_, ?_, ?_, ?_⟩
  · intro l
    exact mem_viable_filterMap rs (fun r => 30 < r.scoreA) l
  · intro l
    exact mem_viable_filterMap rs (fun r => 30 < r.scoreB) l
  · intro h
    rw [mvReportA, mvEstimate, if_pos h]
  · intro h
    rw [mvReportA, mvEstimate, if_neg (by omega)]
  · intro h
    rw [mvReportB, mvEstimate, if_pos h]
  · intro h
    rw [mvReportB, mvEstimate, if_neg (by omega)]

/-- Witness for C4: ten viable windows with loads 10..100 give exactly 10
viable loads, and MV is reported as undefined. -/
theorem mv_estimation_witness :
    (viable_loads_a mvRecords10).length = 10 ∧ mvReportA mvRecords10 = none :=
  ⟨by decide, (mv_estimation mvRecords10).2.2.2.1 (by decide)⟩

/-- An integer key (a positional index) never compares pandas-equal to a
parsed `Date` cell, which is a timestamp or NaT; so the day lookup of line
193 finds no row. -/
lemma row_load_int_none (loadRows : List LoadRow) (i : Int) :
    row_load loadRows (PdVal.pInt i) = none := by
  unfold row_load
  have hfil :
      loadRows.filter (fun r => pdEq (toPdDate r.date) (PdVal.pInt i)) = [] := by
    apply List.filter_eq_nil_iff.mpr
    intro r _
    cases h : r.date <;> simp [toPdDate, pdEq]
  rw [hfil]
  rfl

/-- Consequence of the integer-vs-timestamp comparison: no day ever
matches, so the record list of every run is empty. -/
lemma computeResults_nil (inp : AnalysisInput) (sustain tolerance peak : ℚ) :
    computeResults inp sustain tolerance peak = [] := by
  unfold computeResults
  apply List.flatMap_eq_nil_iff.mpr
  intro ie _
  rw [row_load_int_none]

/-- With equal stripped identifiers every run reaches line 253 with the
always-empty record list and aborts on the `KeyError`. -/
lemma runAnalysis_match_keyError (inp : AnalysisInput)
    (sustain tolerance peak : ℚ)
    (h : pyTrim inp.tvOcc = pyTrim inp.tvLoad) :
    runAnalysis inp sustain tolerance peak = RunOutcome.keyErrorLoad := by
  rw [runAnalysis, if_pos h, computeResults_nil]
  rfl

/-- C5 (code bug): the loop iterates over `occ_df.index` — the positional
integers 0, 1, ... — and compares them against the LOAD `Date` column of
parsed timestamps, a cross-dtype pandas comparison that is always `False`;
so even for an input whose OCC day carries exactly the date of a LOAD row,
no window record is produced, and in fact no input ever produces any
record. -/
theorem day_matching_bug :
    (∃ o ∈ c5Input.occRows, ∃ lr ∈ c5Input.loadRows,
        o.date = lr.date ∧ o.date ≠ none)
    ∧ computeResults c5Input 20 1 25 = []
    ∧ ∀ (inp : AnalysisInput) (sustain tolerance peak : ℚ),
        computeResults inp sustain tolerance peak = [] := by
  have hall : ∀ (inp : AnalysisInput) (sustain tolerance peak : ℚ),
      computeResults inp sustain tolerance peak = [] := by
    intro inp sustain tolerance peak
    unfold computeResults
    apply List.flatMap_eq_nil_iff.mpr
    intro ie _
    rw [row_load_int_none]
  refine ⟨?_, hall c5Input 20 1 25, hall⟩
  refine ⟨{ date := some 739252, cells := [some 10, some 10] }, ?_,
    { date := some 739252, cells := [some 50] }, ?_, rfl, ?_⟩
  · simp [c5Input]
  · simp [c5Input]
  · simp

/-- C6 counterexample: `inpMatch` carries equal (after stripping) sector
identifiers, yet the run does not proceed to a result: it aborts on the
`KeyError` of line 253, the record list being empty for every input. -/
theorem sector_check_counterexample :
    pyTrim inpMatch.tvOcc = pyTrim inpMatch.tvLoad
    ∧ runAnalysis inpMatch 20 1 25 = RunOutcome.keyErrorLoad :=
  ⟨by decide, runAnalysis_match_keyError inpMatch 20 1 25 (by decide)⟩

/-- C6 (amended): a mismatch of the stripped sector identifiers aborts the
run at the identifier check, before any scoring (no records are produced);
equal identifiers let the run pass the check into the record computation,
but every such run then aborts with the uncaught `KeyError` of line 253,
the record list being empty for every input. -/
theorem sector_check_abort (inp : AnalysisInput) (sustain tolerance peak : ℚ) :
    (pyTrim inp.tvOcc ≠ pyTrim inp.tvLoad →
        runAnalysis inp sustain tolerance peak = RunOutcome.tvMismatchStop)
    ∧ (pyTrim inp.tvOcc = pyTrim inp.tvLoad →
        runAnalysis inp sustain tolerance peak = RunOutcome.keyErrorLoad) := by
  constructor
  · intro h
    rw [runAnalysis, if_neg h]
  · intro h
    exact runAnalysis_match_keyError inp sustain tolerance peak h

/-- Witness for C6: a mismatching pair stops at the identifier check; an
(up to stripping) equal pair passes it and dies on the line-253
`KeyError`. -/
theorem sector_check_abort_witness :
    runAnalysis inpMismatch 20 1 25 = RunOutcome.tvMismatchStop
    ∧ runAnalysis inpMatch 20 1 25 = RunOutcome.keyErrorLoad :=
  ⟨(sector_check_abort inpMismatch 20 1 25).1 (by decide),
   (sector_check_abort inpMatch 20 1 25).2 (by decide)⟩

/-- C7 (code bug): the cell-level handling is as claimed — the unparsable
occupancy cell of `c7Input` is coerced to 0 and scored, the loop body keeps
the unparsable load cell as a missing load, and the line-253 filter removes
such a record from any record list that reaches it — but no run ever
reaches one: on `c7Input` (as on every input) the record list is empty and
the run aborts with the uncaught `KeyError` of line 253, so no result set
exists and the run is fatal regardless of the cells. -/
theorem unparsable_cell_policy_bug :
    occValuesOf [none] = [0]
    ∧ windowRecordOf (occValuesOf [none]) 0 20 1 25 (hourLabel, none)
        = some c7Record
    ∧ c7Record.load = none
    ∧ [c7Record].filter (fun r => r.load.isSome) = []
    ∧ runAnalysis c7Input 20 1 25 = RunOutcome.keyErrorLoad := by
  have hparse : parse_load_column hourLabel = some (0, 0) := by decide
  have hw : occ_window (occValuesOf [none]) (0 * 60 + 0) = [0, 0] := by
    rw [show occValuesOf [none] = [(0 : ℚ)] from rfl]
    norm_num [occ_window]
  have hA : score_option_a [(0 : ℚ), 0] 20 1 = 2 := by
    norm_num [score_option_a]
  have hB : score_option_b [(0 : ℚ), 0] 20 1 25 = 2 := by
    norm_num [score_option_b]
  have hM : npMean [(0 : ℚ), 0] = 0 := by norm_num [npMean]
  have hX : npMax [(0 : ℚ), 0] = 0 := by norm_num [npMax, max_def]
  have hr2 : round2 (2 : ℚ) = 2 := by norm_num [round2, pyRound]
  have hr0 : round2 (0 : ℚ) = 0 := by norm_num [round2, pyRound]
  refine ⟨rfl, ?_, rfl, by decide,
    runAnalysis_match_keyError c7Input 20 1 25 (by decide)⟩
  rw [windowRecordOf]
  dsimp only
  rw [hparse]
  dsimp only
  rw [hw, hA, hB, hM, hX, hr2, hr0]
  rfl

lemma c9W_length : c9W.length = 60 := by decide

/-- The window the single column of `c9Day` extracts is exactly `c9W`. -/
lemma c9_window : occ_window c9Occ 0 = c9W := by
  have hlen : c9Occ.length = 1440 := by
    rw [c9Occ, List.length_append, List.length_replicate, c9W_length]
  rw [occ_window, hlen, if_pos (by norm_num), pySlice, List.drop_zero, c9Occ,
    show (0 + 60 : Nat) = c9W.length from by rw [c9W_length]]
  exact List.take_left c9W _

/-- Full evaluation of the single record of `c9Day`. -/
lemma c9_day_eq : c9Day = [c9Record] := by
  have hparse : parse_load_column hourLabel = some (0, 0) := by decide
  have hw : occ_window c9Occ (0 * 60 + 0) = c9W := by
    norm_num
    exact c9_window
  have hA : score_option_a c9W 20 1 = 0 := by norm_num [score_option_a, c9W]
  have hB : score_option_b c9W 20 1 25 = -6 := by norm_num [score_option_b, c9W]
  have hM : npMean c9W = 19/6 := by norm_num [npMean, c9W]
  have hX : npMax c9W = 30 := by norm_num [npMax, c9W, max_def]
  have hrA : round2 (0 : ℚ) = 0 := by norm_num [round2, pyRound]
  have hrB : round2 (-6 : ℚ) = -6 := by norm_num [round2, pyRound]
  have hrM : round2 ((19 : ℚ)/6) = 317/100 := by norm_num [round2, pyRound]
  have hrX : round2 ((30 : ℚ)) = 30 := by norm_num [round2, pyRound]
  have hf : windowRecordOf c9Occ 0 20 1 25 (hourLabel, some 50) = some c9Record := by
    rw [windowRecordOf]
    dsimp only
    rw [hparse]
    dsimp only
    rw [hw, hA, hrA, hB, hrB, hM, hrM, hX, hrX]
    rfl
  show dayResults [hourLabel] [some 50] c9Occ 0 20 1 25 = [c9Record]
  rw [dayResults, show [hourLabel].zip [some (50 : ℚ)] = [(hourLabel, some 50)] from rfl,
    List.filterMap_cons, hf, List.filterMap_nil]

/-- C9 (amended): every record produced for a (day, window) pair carries the
date key, the window label with its parsed start hour and minute, the
(optional) load cell, the two scores, and the mean and the max of the
window's occupancy, each rounded to two decimals — and nothing else; in
particular no 90th-percentile statistic and no dégroupement-minute count. -/
theorem window_record_contents (loadCols : List PyStr)
    (loadCells : List (Option ℚ)) (occValues : List ℚ) (dateKey : Nat)
    (sustain tolerance peak : ℚ) (r : WindowRecord)
    (hr : r ∈ dayResults loadCols loadCells occValues dateKey
        sustain tolerance peak) :
    ∃ col cell hh mm, (col, cell) ∈ loadCols.zip loadCells
      ∧ parse_load_column col = some (hh, mm)
      ∧ r.date = dateKey ∧ r.window = col
      ∧ r.hourStart = hh ∧ r.minStart = mm ∧ r.load = cell
      ∧ r.scoreA = round2 (score_option_a
          (occ_window occValues (hh * 60 + mm)) sustain tolerance)
      ∧ r.scoreB = round2 (score_option_b
          (occ_window occValues (hh * 60 + mm)) sustain tolerance peak)
      ∧ r.avgOcc = round2 (npMean (occ_window occValues (hh * 60 + mm)))
      ∧ r.maxOcc = round2 (npMax (occ_window occValues (hh * 60 + mm))) := by
  rw [dayResults] at hr
  obtain ⟨cc, hcc, hfx⟩ := List.mem_filterMap.mp hr
  rw [windowRecordOf] at hfx
  cases hp : parse_load_column cc.1 with
  | none =>
    rw [hp] at hfx
    simp at hfx
  | some hm =>
    rw [hp] at hfx
    dsimp only at hfx
    injection hfx with hrec
    subst hrec
    exact ⟨cc.1, cc.2, hm.1, hm.2, hcc, hp, rfl, rfl, rfl, rfl, rfl, rfl,
      rfl, rfl, rfl⟩

/-- Witness for C9 at the concrete day `c9Day` and its single record. -/
theorem window_record_contents_witness :
    ∃ col cell hh mm, (col, cell) ∈ [hourLabel].zip [some (50 : ℚ)]
      ∧ parse_load_column col = some (hh, mm)
      ∧ c9Record.date = 0 ∧ c9Record.window = col
      ∧ c9Record.hourStart = hh ∧ c9Record.minStart = mm
      ∧ c9Record.load = cell
      ∧ c9Record.scoreA = round2 (score_option_a
          (occ_window c9Occ (hh * 60 + mm)) 20 1)
      ∧ c9Record.scoreB = round2 (score_option_b
          (occ_window c9Occ (hh * 60 + mm)) 20 1 25)
      ∧ c9Record.avgOcc = round2 (npMean (occ_window c9Occ (hh * 60 + mm)))
      ∧ c9Record.maxOcc = round2 (npMax (occ_window c9Occ (hh * 60 + mm))) :=
  window_record_contents [hourLabel] [some 50] c9Occ 0 20 1 25 c9Record
    (show c9Record ∈ c9Day from by rw [c9_day_eq]; exact List.mem_cons_self _ _)

/-- C9 counterexample: the record produced for the concrete day of `c9Day`
holds no field equal to the 90th percentile of its occupancy window (12)
and no field equal to its dégroupement-minute count (6): the emitted dict
has only Date, Window, Hour_Start, Min_Start, Load, Score_A, Score_B,
Avg_OCC and Max_OCC. -/
theorem window_record_missing_stats :
    ∃ r ∈ c9Day,
      (∀ kv ∈ resultFields r,
        kv.2 ≠ FieldVal.ratV (quantile (occ_window c9Occ 0) (9/10)))
      ∧ (∀ kv ∈ resultFields r,
          kv.2 ≠ FieldVal.natV (degroupementCount (occ_window c9Occ 0) 25)
          ∧ kv.2 ≠ FieldVal.ratV (degroupementCount (occ_window c9Occ 0) 25)) := by
  have hq : quantile (occ_window c9Occ 0) (9/10) = 12 := by
    rw [c9_window]
    norm_num [quantile, sortAsc, insertSorted, c9W, List.getD,
      show Int.toNat 53 = 53 from rfl]
  have hd : degroupementCount (occ_window c9Occ 0) 25 = 6 := by
    rw [c9_window]
    decide
  refine ⟨c9Record, by rw [c9_day_eq]; exact List.mem_cons_self _ _, ?_, ?_⟩
  · rw [hq]
    intro kv hkv
    fin_cases hkv <;> simp [c9Record] <;> norm_num
  · rw [hd]
    intro kv hkv
    fin_cases hkv <;> refine ⟨?_, ?_⟩ <;> simp [c9Record] <;> norm_num

end MVAnalysis
